import Mathlib

/-!
Shallow embedding of `src/sextant.py`, an in-browser lunar-distance
calculator.  The astronomy library (astropy) is an external collaborator:
it is modelled as a structure `AstroLib` of abstract, fallible functions.
Times are rationals counted in minutes, angles are rationals counted in
degrees.  Each operation of the script is embedded as a Lean function
returning its Python return value (with `Except` capturing an uncaught
Python exception) together with the ordered list of writes it performed
to page elements.
-/

namespace Sextant

/-- Page elements bound by ID at startup (sextant.py lines 34-48). -/
inductive ElemId
  | date | time | geolon | geolat | starpos
  | mooncoo | moondis | utctime | timediff
  | ephembutton | distbutton | utcbutton
  | refstar | starcoo | stardis
  deriving DecidableEq, Repr

/-- A write event: target element and the string (or property value) written. -/
abbrev Wr := ElemId × String

/-- Result of an `EarthLocation.from_geodetic` call: longitude and latitude,
with `lonDeg` the value of `obsloc.lon.deg`. -/
structure EarthLoc where
  lonDeg : ℚ
  latDeg : ℚ
  deriving DecidableEq, Repr

/-- An astropy `SkyCoord`: right ascension and declination in degrees. -/
structure SkyCoord where
  ra : ℚ
  dec : ℚ
  deriving DecidableEq, Repr

/-- Distinguishes the exception classes caught by `get_starcoo`
(sextant.py lines 82-87). -/
inductive NameErr
  | nameResolve
  | jsException (msg : String)
  | other (msg : String)
  deriving DecidableEq, Repr

/-- The external astronomy library, abstracted: each field stands for one
astropy entry point the script calls.  Formatting helpers stand for the
string renderings astropy produces (`to_string`, `str(Time)`, f-formats). -/
structure AstroLib where
  from_geodetic : String → String → Except String EarthLoc
  from_geodetic_vec : List ℚ → String → Except String (List EarthLoc)
  timeParse : String → Except String ℚ
  skyCoord : String → Except String SkyCoord
  from_name : String → Except NameErr SkyCoord
  get_moon : ℚ → EarthLoc → String → Except String SkyCoord
  get_moon_vec : List ℚ → List EarthLoc → String → Except String (List SkyCoord)
  separation : SkyCoord → SkyCoord → Except String ℚ
  separation_vec : List SkyCoord → SkyCoord → Except String (List ℚ)
  parseAngle : String → Option String → Except String ℚ
  fmtCoord : SkyCoord → Nat → String
  fmtCoordDefault : SkyCoord → String
  fmtAngle : ℚ → Nat → String
  fmtTime : ℚ → String
  fmtLon : EarthLoc → String
  fmtLat : EarthLoc → String
  fmtLonF3 : EarthLoc → String
  fmtLatF3 : EarthLoc → String
  fmtMin : ℚ → String

/-- The form-field values read by the script. -/
structure Inputs where
  date : String
  time : String
  geolon : String
  geolat : String
  starpos : String
  refstar : String
  stardis : String
  deriving DecidableEq, Repr

/-- Return value of an operation together with the ordered writes it
performed.  `val = .error e` models an uncaught Python exception. -/
structure Res (α : Type) where
  val : Except String α
  writes : List Wr

/-- Hardcoded star list of `populate_dropdowns` (sextant.py lines 25-27). -/
def star_names : List (String × String) :=
  [("Aldebaran", "04h35m55.2390696s +16d30m33.4884636s"),
   ("Hamal", "02h07m10.405704s +23d27m44.70318s"),
   ("Regulus", "10h08m22.31098512s +11d58m01.9515936s")]

/-- The option tags built by `populate_dropdowns` (sextant.py line 29). -/
def select_options : List String :=
  star_names.map (fun p =>
    let pos := p.2
    let nm := p.1
    s!"<option value=\"{pos}\">{nm}</option>")

/-- Module-level writes at startup: `populate_dropdowns(refstar.element)`
assigning the option list to the dropdown `innerHTML`, then enabling the
three buttons (sextant.py lines 50-54). -/
def setupWrites : List Wr :=
  [(ElemId.refstar, String.intercalate "," select_options),
   (ElemId.ephembutton, "disabled=False"),
   (ElemId.distbutton, "disabled=False"),
   (ElemId.utcbutton, "disabled=False")]

/-- Error text of sextant.py line 65. -/
def msgObslocErr (lon lat e : String) : String :=
  s!"Fehler bei Positionseingabe zu Länge, Breite {lon}, {lat}: {e}"

/-- Echo text of sextant.py line 69. -/
def msgKoord (lons lats : String) : String :=
  s!"Koordinaten: {lons}, {lats}"

/-- Error text of sextant.py line 83. -/
def msgSternUnbekannt (starstr : String) : String :=
  s!"Stern \"{starstr}\" ist nicht bekannt."

/-- Error text of sextant.py line 85. -/
def msgCDS (starstr e : String) : String :=
  s!"Keine Verbindung zu CDS für Suche nach \"{starstr}\" möglich: {e}"

/-- Error text of sextant.py line 87. -/
def msgSternFehler (starstr e : String) : String :=
  s!"Fehler in Sternposition für {starstr}: {e}"

/-- Echo text of sextant.py line 89. -/
def msgSternpos (cs : String) : String :=
  s!"Sternposition {cs}"

/-- Error text of sextant.py line 105. -/
def msgDatumErr (d t e : String) : String :=
  s!"Fehler bei Datumseingabe für {d} {t} {e}"

/-- Echo text of sextant.py line 108. -/
def msgDatumZeit (d t ots : String) : String :=
  s!"Datum, Zeit: {d} {t} {ots}"

/-- Error text of sextant.py lines 116-117 (the f-string interpolates the
Element objects bound to the longitude and latitude fields). -/
def msgMondErr (e d t : String) : String :=
  s!"Fehler in Mondposition: {e} - Datum, Position: {d} {t}; Element(geolon) Element(geolat)"

/-- Echo text of sextant.py lines 119-120. -/
def msgMondpos (l3 b3 ots mcs : String) : String :=
  s!"Mondposition von {l3} Länge {b3} Breite am {ots} (UTC): {mcs}"

/-- Output text of sextant.py lines 131-132 (two concatenated f-strings). -/
def msgAbstand (scs ds : String) : String :=
  s!"Abstand zu Sternposition {scs}:     {ds}"

/-- Error text of sextant.py line 134. -/
def msgDistErr (scs e : String) : String :=
  s!"Fehler bei Distanzbestimmung zu {scs}: {e}"

/-- Error text of sextant.py line 146. -/
def msgWinkelErr (raw e : String) : String :=
  s!"Fehler beim Lesen von Winkelabstand {raw}: {e}"

/-- Output text of sextant.py lines 161-163. -/
def msgBeste (scs dsel tss : String) : String :=
  s!"Beste Monddistanz zu {scs} ist {dsel} um {tss} (Greenwich Mean Time)"

/-- Output text of sextant.py lines 164-165. -/
def msgDiff (dmin : String) : String :=
  s!"Differenz Ortszeit – Weltzeit = {dmin} Minuten"

/-- Python `str.find` for a single character: index of first occurrence,
`-1` when absent. -/
def strFind (s : String) (c : Char) : Int :=
  match s.toList.findIdx? (fun x => x = c) with
  | some i => (i : Int)
  | none => -1

/-- Python `str.strip()` (drop leading and trailing whitespace), written
on the character list so that it evaluates by kernel reduction. -/
def pyStrip (s : String) : String :=
  String.mk ((s.toList.dropWhile Char.isWhitespace).reverse.dropWhile
    Char.isWhitespace).reverse

/-- Python `str.split()` (split on whitespace, dropping empty fields). -/
def pySplit (s : String) : List String :=
  (s.split Char.isWhitespace).filter (fun t => t ≠ "")

/-- Model of `get_obsloc()` with both arguments defaulted, as called by `ephem`
(sextant.py lines 57-70): parse the longitude/latitude fields; on failure
write a German error to `mooncoo` and return `None`; on success (scalar
longitude) write the coordinates and return the location. -/
def get_obsloc (lib : AstroLib) (inp : Inputs) : Option EarthLoc × List Wr :=
  let lon := inp.geolon
  let lat := inp.geolat
  match lib.from_geodetic lon lat with
  | .error e =>
      (none, [(ElemId.mooncoo, msgObslocErr lon lat e)])
  | .ok obsloc =>
      -- np.isscalar(obsloc.lon.value) holds on this scalar path
      let lons := lib.fmtLon obsloc
      let lats := lib.fmtLat obsloc
      (some obsloc, [(ElemId.mooncoo, msgKoord lons lats)])

/-- Model of `get_obsloc(lon=...)` with a longitude array (in arcmin), as called by
`utctime` (sextant.py line 150).  The latitude still defaults to the form
field.  `np.isscalar` is false on the array path, so no coordinate echo is
written on success. -/
def get_obsloc_vec (lib : AstroLib) (inp : Inputs) (lonAm : List ℚ) :
    Option (List EarthLoc) × List Wr :=
  let lat := inp.geolat
  match lib.from_geodetic_vec lonAm lat with
  | .error e =>
      let lonRepr := toString lonAm
      (none, [(ElemId.mooncoo, msgObslocErr lonRepr lat e)])
  | .ok obslocs => (some obslocs, [])

/-- Model of `get_starcoo()` (sextant.py lines 73-92).  A manual entry longer than 2
characters (after stripping) is parsed directly when it looks like an
hms/dms pair, otherwise resolved by name, with three exception handlers
writing to `moondis`; a short entry falls through to parsing the dropdown
value, with no exception handling on that path. -/
def starcoo_render (lib : AstroLib) (starstr : String)
    (parsed : Except NameErr SkyCoord) : Res (Option SkyCoord) :=
  match parsed with
  | .error NameErr.nameResolve =>
      ⟨.ok none, [(ElemId.moondis, msgSternUnbekannt starstr)]⟩
  | .error (NameErr.jsException e) =>
      ⟨.ok none, [(ElemId.moondis, msgCDS starstr e)]⟩
  | .error (NameErr.other e) =>
      ⟨.ok none, [(ElemId.moondis, msgSternFehler starstr e)]⟩
  | .ok c =>
      let cs := lib.fmtCoord c 2
      ⟨.ok (some c), [(ElemId.moondis, msgSternpos cs)]⟩

def get_starcoo (lib : AstroLib) (inp : Inputs) : Res (Option SkyCoord) :=
  if (pyStrip inp.starpos).length > 2 then
    let starstr := inp.starpos
    let toks := pySplit starstr
    starcoo_render lib starstr
      (if toks.length = 2 ∧ strFind (toks.getD 1 "") 'd' > 0 then
        match lib.skyCoord starstr with
        | .ok c => .ok c
        | .error e => .error (NameErr.other e)
      else
        lib.from_name starstr)
  else
    -- sextant.py line 91: not inside any try block
    match lib.skyCoord inp.refstar with
    | .ok c => ⟨.ok (some c), []⟩
    | .error e => ⟨.error e, []⟩

/-- Model of `ephem()` (sextant.py lines 95-121).  On a Moon-ephemeris failure the
error is written, but the final `return mooncoo` then raises a Python
`NameError` because `mooncoo` was never bound; we model that uncaught
exception faithfully. -/
def ephem (lib : AstroLib) (inp : Inputs) : Res (Option SkyCoord) :=
  let r := get_obsloc lib inp
  match r.1 with
  | none => ⟨.ok none, r.2⟩
  | some obsloc =>
      let d := inp.date
      let t := inp.time
      match lib.timeParse (d ++ " " ++ t) with
      | .error e =>
          ⟨.ok none, r.2 ++ [(ElemId.mooncoo, msgDatumErr d t e)]⟩
      | .ok tv =>
          let obstime := tv - obsloc.lonDeg * 4
          let ots := lib.fmtTime obstime
          let w1 := r.2 ++ [(ElemId.mooncoo, msgDatumZeit d t ots)]
          match lib.get_moon obstime obsloc "builtin" with
          | .error e =>
              ⟨.error "NameError: name mooncoo is not defined",
               w1 ++ [(ElemId.mooncoo, msgMondErr e d t)]⟩
          | .ok mc =>
              let l3 := lib.fmtLonF3 obsloc
              let b3 := lib.fmtLatF3 obsloc
              let mcs := lib.fmtCoord mc 2
              ⟨.ok (some mc),
               w1 ++ [(ElemId.mooncoo, msgMondpos l3 b3 ots mcs)]⟩

/-- Model of `distanz(mooncoo)` (sextant.py lines 124-134). -/
def distanz (lib : AstroLib) (inp : Inputs) (mooncoo : SkyCoord) : Res Unit :=
  let r := get_starcoo lib inp
  match r.val with
  | .error e => ⟨.error e, r.writes⟩
  | .ok none => ⟨.ok (), r.writes⟩
  | .ok (some sc) =>
      match lib.separation mooncoo sc with
      | .ok dv =>
          let scs := lib.fmtCoord sc 1
          let ds := lib.fmtAngle dv 1
          ⟨.ok (), r.writes ++ [(ElemId.moondis, msgAbstand scs ds)]⟩
      | .error e =>
          let scs := lib.fmtCoordDefault sc
          ⟨.ok (), r.writes ++ [(ElemId.moondis, msgDistErr scs e)]⟩

/-- Model of `range(-240, 240)` — time differences to UTC in minutes
(sextant.py line 149). -/
def offsets : List ℤ := (List.range 480).map (fun (i : ℕ) => (i : ℤ) - 240)

/-- Model of `15 * u.arcmin * offsets` — the longitude array handed to
`get_obsloc` (sextant.py line 150), in arcminutes. -/
def lonArcmin : List ℚ := offsets.map (fun (k : ℤ) => 15 * (k : ℚ))

/-- The hardcoded local time literal of sextant.py line 156.  The form-field
expression appears there only as a comment. -/
def loctimeStr : String := "1761-01-15 19:55:00"

/-- Model of `obstimes = loctime - u.minute * offsets` (sextant.py line 157). -/
def obstimes (loctime : ℚ) : List ℚ := offsets.map (fun (k : ℤ) => loctime - (k : ℚ))

/-- Helper of `argminQ`: fold carrying the index/value of the best
element seen so far (strict `<`, so the first minimum wins, matching
`np.argmin`). -/
def argminAux : List ℚ → Nat → ℚ → Nat → Nat × ℚ
  | [], _, bv, bi => (bi, bv)
  | x :: rest, i, bv, bi =>
      if x < bv then argminAux rest (i + 1) x i else argminAux rest (i + 1) bv bi

/-- Model of `np.argmin`: index of the first minimal element of the list. -/
def argminQ : List ℚ → Nat
  | [] => 0
  | x :: rest => (argminAux rest 1 x 0).1

/-- Unit selection of sextant.py lines 140-143: an angle string containing
one of the letters d, m, s carries its own unit, otherwise degrees. -/
def dunitOf (angle : String) : Option String :=
  if angle.contains 'd' || angle.contains 'm' || angle.contains 's' then none
  else some "deg"

/-- Model of `utctime()` (sextant.py lines 137-165): parse the angle (errors caught),
get the star (may raise from the dropdown branch), build the 480-candidate
longitude grid, and — with the hardcoded local time — pick the candidate
whose Moon-star separation is closest to the entered angle.  The block from
line 152 on has no exception handler. -/
def utctime (lib : AstroLib) (inp : Inputs) : Res Unit :=
  let angle := inp.stardis.toLower
  match lib.parseAngle angle (dunitOf angle) with
  | .error e =>
      let raw := inp.stardis
      ⟨.ok (), [(ElemId.utctime, msgWinkelErr raw e)]⟩
  | .ok mydist =>
      let rs := get_starcoo lib inp
      match rs.val with
      | .error e => ⟨.error e, rs.writes⟩
      | .ok starcooOpt =>
          let ro := get_obsloc_vec lib inp lonArcmin
          match starcooOpt, ro.1 with
          | some sc, some obslocs =>
              match lib.timeParse loctimeStr with
              | .error e => ⟨.error e, rs.writes ++ ro.2⟩
              | .ok loctime =>
                  let obst := obstimes loctime
                  match lib.get_moon_vec obst obslocs "builtin" with
                  | .error e => ⟨.error e, rs.writes ++ ro.2⟩
                  | .ok mooncoords =>
                      match lib.separation_vec mooncoords sc with
                      | .error e => ⟨.error e, rs.writes ++ ro.2⟩
                      | .ok distances =>
                          let idx := argminQ (distances.map (fun dv => |dv - mydist|))
                          let scs := lib.fmtCoord sc 0
                          let dsel := lib.fmtAngle (distances.getD idx 0) 0
                          let tsel := obst.getD idx 0
                          let tss := lib.fmtTime tsel
                          let dmin := lib.fmtMin (loctime - tsel)
                          ⟨.ok (),
                           rs.writes ++ ro.2 ++
                             [(ElemId.utctime, msgBeste scs dsel tss),
                              (ElemId.timediff, msgDiff dmin)]⟩
          | _, _ => ⟨.ok (), rs.writes ++ ro.2⟩

/-- Copy of `lib` with its Moon-ephemeris and vector-separation entry points
replaced; used to state that an operation performs no Moon computation. -/
def libWithMoon (lib : AstroLib)
    (gm : List ℚ → List EarthLoc → String → Except String (List SkyCoord))
    (sv : List SkyCoord → SkyCoord → Except String (List ℚ)) : AstroLib where
  from_geodetic := lib.from_geodetic
  from_geodetic_vec := lib.from_geodetic_vec
  timeParse := lib.timeParse
  skyCoord := lib.skyCoord
  from_name := lib.from_name
  get_moon := lib.get_moon
  get_moon_vec := gm
  separation := lib.separation
  separation_vec := sv
  parseAngle := lib.parseAngle
  fmtCoord := lib.fmtCoord
  fmtCoordDefault := lib.fmtCoordDefault
  fmtAngle := lib.fmtAngle
  fmtTime := lib.fmtTime
  fmtLon := lib.fmtLon
  fmtLat := lib.fmtLat
  fmtLonF3 := lib.fmtLonF3
  fmtLatF3 := lib.fmtLatF3
  fmtMin := lib.fmtMin

/-- Split a character list at every occurrence of `c` (like `str.split(c)`). -/
def splitOnChar (c : Char) : List Char → List (List Char)
  | [] => [[]]
  | x :: xs =>
      let r := splitOnChar c xs
      if x = c then [] :: r
      else
        match r with
        | [] => [[x]]
        | y :: ys => (x :: y) :: ys

/-- A nonempty run of decimal digits. -/
def isDigits (cs : List Char) : Bool :=
  cs ≠ [] && cs.all Char.isDigit

/-- Digits with at most one decimal point, as in `55.2390696` or `44`. -/
def isDecimal (cs : List Char) : Bool :=
  match splitOnChar '.' cs with
  | [a] => isDigits a
  | [a, b] => isDigits a && isDigits b
  | _ => false

/-- A sexagesimal token `<digits>h<digits>m<decimal>s`. -/
def isHmsToken (cs : List Char) : Bool :=
  match splitOnChar 'h' cs with
  | [hh, r1] =>
      isDigits hh &&
        match splitOnChar 'm' r1 with
        | [mm, r2] =>
            isDigits mm &&
              match splitOnChar 's' r2 with
              | [ss, []] => isDecimal ss
              | _ => false
        | _ => false
  | _ => false

/-- A signed sexagesimal token `±<digits>d<digits>m<decimal>s`. -/
def isDmsToken (cs : List Char) : Bool :=
  match cs with
  | [] => false
  | c :: rest =>
      (c = '+' || c = '-') &&
        match splitOnChar 'd' rest with
        | [dd, r1] =>
            isDigits dd &&
              match splitOnChar 'm' r1 with
              | [mm, r2] =>
                  isDigits mm &&
                    match splitOnChar 's' r2 with
                    | [ss, []] => isDecimal ss
                    | _ => false
              | _ => false
        | _ => false

/-- A well-formed hms/dms coordinate pair, the format astropy `SkyCoord`
accepts for strings like the dropdown values. -/
def isHmsDmsPair (s : String) : Bool :=
  match (splitOnChar ' ' s.toList).filter (fun t => t ≠ []) with
  | [a, b] => isHmsToken a && isDmsToken b
  | _ => false

/-- A concrete instantiation of the external library in which every call
succeeds; used to witness the theorems on concrete runs. -/
def constLib : AstroLib where
  from_geodetic := fun _ _ => .ok ⟨0, 0⟩
  from_geodetic_vec := fun lonAm _ => .ok (lonAm.map (fun q => ⟨q / 60, 0⟩))
  timeParse := fun _ => .ok 0
  skyCoord := fun _ => .ok ⟨0, 0⟩
  from_name := fun _ => .ok ⟨0, 0⟩
  get_moon := fun _ _ _ => .ok ⟨0, 0⟩
  get_moon_vec := fun ts _ _ => .ok (ts.map (fun _ => ⟨0, 0⟩))
  separation := fun _ _ => .ok 0
  separation_vec := fun ms _ => .ok (ms.map (fun _ => 0))
  parseAngle := fun _ _ => .ok 0
  fmtCoord := fun _ _ => "C"
  fmtCoordDefault := fun _ => "C"
  fmtAngle := fun q _ => toString q
  fmtTime := fun q => toString q
  fmtLon := fun l => toString l.lonDeg
  fmtLat := fun l => toString l.latDeg
  fmtLonF3 := fun l => toString l.lonDeg
  fmtLatF3 := fun l => toString l.latDeg
  fmtMin := fun q => toString q

/-- Concrete form-field values for witnesses: empty manual star entry
(so the dropdown value is used) and the Aldebaran dropdown value. -/
def inp0 : Inputs where
  date := "1761-01-15"
  time := "19:55:00"
  geolon := "0d"
  geolat := "0d"
  starpos := ""
  refstar := "04h35m55.2390696s +16d30m33.4884636s"
  stardis := "90"

/-- A library in which the Moon ephemeris on the time grid raises; the
remaining entry points behave like `constLib`. -/
def moonFailLib : AstroLib :=
  libWithMoon constLib (fun _ _ _ => .error "boom") (fun ms _ => .ok (ms.map (fun _ => 0)))

/-- A library in which observer-location construction raises and angle
parsing succeeds; the remaining entry points behave like `constLib`. -/
def locFailLib : AstroLib where
  from_geodetic := fun _ _ => .error "locbad"
  from_geodetic_vec := fun _ _ => .error "locbad"
  timeParse := fun _ => .ok 0
  skyCoord := fun _ => .ok ⟨0, 0⟩
  from_name := fun _ => .ok ⟨0, 0⟩
  get_moon := fun _ _ _ => .ok ⟨0, 0⟩
  get_moon_vec := fun ts _ _ => .ok (ts.map (fun _ => ⟨0, 0⟩))
  separation := fun _ _ => .ok 0
  separation_vec := fun ms _ => .ok (ms.map (fun _ => 0))
  parseAngle := fun _ _ => .ok 0
  fmtCoord := fun _ _ => "C"
  fmtCoordDefault := fun _ => "C"
  fmtAngle := fun q _ => toString q
  fmtTime := fun q => toString q
  fmtLon := fun l => toString l.lonDeg
  fmtLat := fun l => toString l.latDeg
  fmtLonF3 := fun l => toString l.lonDeg
  fmtLatF3 := fun l => toString l.latDeg
  fmtMin := fun q => toString q

/-- A library whose angle parser raises; the remaining entry points behave
like `constLib`. -/
def angleFailLib : AstroLib where
  from_geodetic := fun _ _ => .ok ⟨0, 0⟩
  from_geodetic_vec := fun lonAm _ => .ok (lonAm.map (fun q => ⟨q / 60, 0⟩))
  timeParse := fun _ => .ok 0
  skyCoord := fun _ => .ok ⟨0, 0⟩
  from_name := fun _ => .ok ⟨0, 0⟩
  get_moon := fun _ _ _ => .ok ⟨0, 0⟩
  get_moon_vec := fun ts _ _ => .ok (ts.map (fun _ => ⟨0, 0⟩))
  separation := fun _ _ => .ok 0
  separation_vec := fun ms _ => .ok (ms.map (fun _ => 0))
  parseAngle := fun _ _ => .error "anglebad"
  fmtCoord := fun _ _ => "C"
  fmtCoordDefault := fun _ => "C"
  fmtAngle := fun q _ => toString q
  fmtTime := fun q => toString q
  fmtLon := fun l => toString l.lonDeg
  fmtLat := fun l => toString l.latDeg
  fmtLonF3 := fun l => toString l.lonDeg
  fmtLatF3 := fun l => toString l.latDeg
  fmtMin := fun q => toString q

/-! ## Properties of the argmin fold -/

lemma argminAux_le (xs : List ℚ) : ∀ (i bi : Nat) (bv : ℚ),
    (argminAux xs i bv bi).2 ≤ bv ∧ ∀ a ∈ xs, (argminAux xs i bv bi).2 ≤ a := by
  induction xs with
  | nil => intro i bi bv; simp [argminAux]
  | cons x rest ih =>
      intro i bi bv
      by_cases h : x < bv
      · have hr := ih (i + 1) i x
        refine ⟨?_, ?_⟩
        · simpa [argminAux, h] using le_trans hr.1 (le_of_lt h)
        · intro a ha
          rcases List.mem_cons.mp ha with rfl | ha
          · simpa [argminAux, h] using hr.1
          · simpa [argminAux, h] using hr.2 a ha
      · have hr := ih (i + 1) bi bv
        refine ⟨?_, ?_⟩
        · simpa [argminAux, h] using hr.1
        · intro a ha
          rcases List.mem_cons.mp ha with rfl | ha
          · simpa [argminAux, h] using le_trans hr.1 (not_lt.mp h)
          · simpa [argminAux, h] using hr.2 a ha

lemma argminAux_index (xs : List ℚ) : ∀ (i bi : Nat) (bv : ℚ),
    ((argminAux xs i bv bi).1 = bi ∧ (argminAux xs i bv bi).2 = bv) ∨
    (∃ j, j < xs.length ∧ (argminAux xs i bv bi).1 = i + j ∧
      (argminAux xs i bv bi).2 = xs.getD j 0) := by
  induction xs with
  | nil => intro i bi bv; left; simp [argminAux]
  | cons x rest ih =>
      intro i bi bv
      by_cases h : x < bv
      · rcases ih (i + 1) i x with ⟨h1, h2⟩ | ⟨j, hj, h1, h2⟩
        · right
          refine ⟨0, by simp, ?_, ?_⟩
          · simpa [argminAux, h] using h1
          · simpa [argminAux, h] using h2
        · right
          refine ⟨j + 1, by simpa using Nat.succ_lt_succ hj, ?_, ?_⟩
          · have : (argminAux rest (i + 1) x i).1 = i + (j + 1) := by omega
            simpa [argminAux, h] using this
          · simpa [argminAux, h, List.getD_cons_succ] using h2
      · rcases ih (i + 1) bi bv with ⟨h1, h2⟩ | ⟨j, hj, h1, h2⟩
        · left
          constructor
          · simpa [argminAux, h] using h1
          · simpa [argminAux, h] using h2
        · right
          refine ⟨j + 1, by simpa using Nat.succ_lt_succ hj, ?_, ?_⟩
          · have : (argminAux rest (i + 1) bv bi).1 = i + (j + 1) := by omega
            simpa [argminAux, h] using this
          · simpa [argminAux, h, List.getD_cons_succ] using h2

lemma argminQ_lt_length (l : List ℚ) (h : l ≠ []) : argminQ l < l.length := by
  match l with
  | x :: rest =>
      rcases argminAux_index rest 1 0 x with ⟨h1, _⟩ | ⟨j, hj, h1, _⟩
      · simp [argminQ, h1]
      · simp only [argminQ, h1, List.length_cons]
        omega

lemma argminQ_getD (l : List ℚ) (h : l ≠ []) :
    ∀ j, j < l.length → l.getD (argminQ l) 0 ≤ l.getD j 0 := by
  match l with
  | x :: rest =>
      intro j hj
      have hval : (x :: rest).getD (argminQ (x :: rest)) 0 = (argminAux rest 1 x 0).2 := by
        rcases argminAux_index rest 1 0 x with ⟨h1, h2⟩ | ⟨k, hk, h1, h2⟩
        · simp [argminQ, h1, h2]
        · have : argminQ (x :: rest) = k + 1 := by simp [argminQ, h1]; omega
          rw [this, List.getD_cons_succ, h2]
      rw [hval]
      have hle := argminAux_le rest 1 0 x
      match j with
      | 0 => simpa using hle.1
      | j + 1 =>
          rw [List.getD_cons_succ]
          have hjl : j < rest.length := by simpa using hj
          have hmem : rest.getD j 0 ∈ rest := by
            rw [List.getD_eq_getElem rest 0 hjl]
            exact List.getElem_mem hjl
          exact hle.2 _ hmem

/-! ## Run lemmas: the operations under explicit library outcomes -/

lemma get_obsloc_ok (lib : AstroLib) (inp : Inputs) (loc : EarthLoc)
    (h : lib.from_geodetic inp.geolon inp.geolat = .ok loc) :
    get_obsloc lib inp =
      (some loc, [(ElemId.mooncoo, msgKoord (lib.fmtLon loc) (lib.fmtLat loc))]) := by
  simp [get_obsloc, h]

lemma get_obsloc_err (lib : AstroLib) (inp : Inputs) (e : String)
    (h : lib.from_geodetic inp.geolon inp.geolat = .error e) :
    get_obsloc lib inp =
      (none, [(ElemId.mooncoo, msgObslocErr inp.geolon inp.geolat e)]) := by
  simp [get_obsloc, h]

lemma get_obsloc_vec_ok (lib : AstroLib) (inp : Inputs) (lonAm : List ℚ)
    (locs : List EarthLoc)
    (h : lib.from_geodetic_vec lonAm inp.geolat = .ok locs) :
    get_obsloc_vec lib inp lonAm = (some locs, []) := by
  simp [get_obsloc_vec, h]

lemma get_obsloc_vec_err (lib : AstroLib) (inp : Inputs) (lonAm : List ℚ)
    (e : String)
    (h : lib.from_geodetic_vec lonAm inp.geolat = .error e) :
    get_obsloc_vec lib inp lonAm =
      (none, [(ElemId.mooncoo, msgObslocErr (toString lonAm) inp.geolat e)]) := by
  simp [get_obsloc_vec, h]

lemma ephem_run (lib : AstroLib) (inp : Inputs) (loc : EarthLoc) (tv : ℚ)
    (mc : SkyCoord)
    (hL : lib.from_geodetic inp.geolon inp.geolat = .ok loc)
    (hT : lib.timeParse (inp.date ++ " " ++ inp.time) = .ok tv)
    (hM : lib.get_moon (tv - loc.lonDeg * 4) loc "builtin" = .ok mc) :
    ephem lib inp =
      ⟨.ok (some mc),
       [(ElemId.mooncoo, msgKoord (lib.fmtLon loc) (lib.fmtLat loc)),
        (ElemId.mooncoo, msgDatumZeit inp.date inp.time (lib.fmtTime (tv - loc.lonDeg * 4))),
        (ElemId.mooncoo, msgMondpos (lib.fmtLonF3 loc) (lib.fmtLatF3 loc)
          (lib.fmtTime (tv - loc.lonDeg * 4)) (lib.fmtCoord mc 2))]⟩ := by
  simp [ephem, get_obsloc, hL, hT, hM]

lemma ephem_moonerr (lib : AstroLib) (inp : Inputs) (loc : EarthLoc) (tv : ℚ)
    (e : String)
    (hL : lib.from_geodetic inp.geolon inp.geolat = .ok loc)
    (hT : lib.timeParse (inp.date ++ " " ++ inp.time) = .ok tv)
    (hM : lib.get_moon (tv - loc.lonDeg * 4) loc "builtin" = .error e) :
    ephem lib inp =
      ⟨.error "NameError: name mooncoo is not defined",
       [(ElemId.mooncoo, msgKoord (lib.fmtLon loc) (lib.fmtLat loc)),
        (ElemId.mooncoo, msgDatumZeit inp.date inp.time (lib.fmtTime (tv - loc.lonDeg * 4))),
        (ElemId.mooncoo, msgMondErr e inp.date inp.time)]⟩ := by
  simp [ephem, get_obsloc, hL, hT, hM]

lemma utctime_run (lib : AstroLib) (inp : Inputs) (mydist : ℚ) (sc : SkyCoord)
    (w1 : List Wr) (locs : List EarthLoc) (lt : ℚ) (moons : List SkyCoord)
    (dists : List ℚ)
    (hA : lib.parseAngle inp.stardis.toLower (dunitOf inp.stardis.toLower) = .ok mydist)
    (hS : get_starcoo lib inp = ⟨.ok (some sc), w1⟩)
    (hO : lib.from_geodetic_vec lonArcmin inp.geolat = .ok locs)
    (hT : lib.timeParse loctimeStr = .ok lt)
    (hM : lib.get_moon_vec (obstimes lt) locs "builtin" = .ok moons)
    (hD : lib.separation_vec moons sc = .ok dists) :
    utctime lib inp =
      ⟨.ok (),
       w1 ++
        [(ElemId.utctime,
          msgBeste (lib.fmtCoord sc 0)
            (lib.fmtAngle (dists.getD (argminQ (dists.map (fun dv => |dv - mydist|))) 0) 0)
            (lib.fmtTime ((obstimes lt).getD (argminQ (dists.map (fun dv => |dv - mydist|))) 0))),
         (ElemId.timediff,
          msgDiff (lib.fmtMin
            (lt - (obstimes lt).getD (argminQ (dists.map (fun dv => |dv - mydist|))) 0)))]⟩ := by
  simp [utctime, hA, hS, get_obsloc_vec, hO, hT, hM, hD]

lemma get_starcoo_short (lib : AstroLib) (inp : Inputs) (c : SkyCoord)
    (hshort : ¬ (pyStrip inp.starpos).length > 2)
    (hc : lib.skyCoord inp.refstar = .ok c) :
    get_starcoo lib inp = ⟨.ok (some c), []⟩ := by
  simp [get_starcoo, hshort, hc]

lemma offsets_length : offsets.length = 480 := by
  rw [offsets, List.length_map, List.length_range]

lemma obstimes_length (lt : ℚ) : (obstimes lt).length = 480 := by
  rw [obstimes, List.length_map, offsets_length]

lemma getD_map_absdiff (l : List ℚ) (m : ℚ) (j : Nat) (hj : j < l.length) :
    (l.map (fun dv => |dv - m|)).getD j 0 = |l.getD j 0 - m| := by
  rw [List.getD_eq_getElem _ _ (by simpa using hj), List.getD_eq_getElem _ _ hj,
    List.getElem_map]

lemma utctime_moonerr (lib : AstroLib) (inp : Inputs) (mydist : ℚ) (sc : SkyCoord)
    (w1 : List Wr) (locs : List EarthLoc) (lt : ℚ) (e : String)
    (hA : lib.parseAngle inp.stardis.toLower (dunitOf inp.stardis.toLower) = .ok mydist)
    (hS : get_starcoo lib inp = ⟨.ok (some sc), w1⟩)
    (hO : lib.from_geodetic_vec lonArcmin inp.geolat = .ok locs)
    (hT : lib.timeParse loctimeStr = .ok lt)
    (hM : lib.get_moon_vec (obstimes lt) locs "builtin" = .error e) :
    utctime lib inp = ⟨.error e, w1⟩ := by
  simp [utctime, hA, hS, get_obsloc_vec, hO, hT, hM]

lemma utctime_seperr (lib : AstroLib) (inp : Inputs) (mydist : ℚ) (sc : SkyCoord)
    (w1 : List Wr) (locs : List EarthLoc) (lt : ℚ) (moons : List SkyCoord) (e : String)
    (hA : lib.parseAngle inp.stardis.toLower (dunitOf inp.stardis.toLower) = .ok mydist)
    (hS : get_starcoo lib inp = ⟨.ok (some sc), w1⟩)
    (hO : lib.from_geodetic_vec lonArcmin inp.geolat = .ok locs)
    (hT : lib.timeParse loctimeStr = .ok lt)
    (hM : lib.get_moon_vec (obstimes lt) locs "builtin" = .ok moons)
    (hD : lib.separation_vec moons sc = .error e) :
    utctime lib inp = ⟨.error e, w1⟩ := by
  simp [utctime, hA, hS, get_obsloc_vec, hO, hT, hM, hD]

lemma starcoo_render_ok (lib : AstroLib) (s : String)
    (parsed : Except NameErr SkyCoord) :
    ∃ v, (starcoo_render lib s parsed).val = .ok v := by
  rcases parsed with ne | c
  · rcases ne with _ | e | e <;> exact ⟨none, rfl⟩
  · exact ⟨some c, rfl⟩

lemma get_starcoo_manual_ok (lib : AstroLib) (inp : Inputs)
    (h : (pyStrip inp.starpos).length > 2) :
    ∃ v, (get_starcoo lib inp).val = .ok v := by
  unfold get_starcoo
  rw [if_pos h]
  exact starcoo_render_ok lib inp.starpos _

lemma get_starcoo_short_err (lib : AstroLib) (inp : Inputs) (e : String)
    (hshort : ¬ (pyStrip inp.starpos).length > 2)
    (hc : lib.skyCoord inp.refstar = .error e) :
    get_starcoo lib inp = ⟨.error e, []⟩ := by
  simp [get_starcoo, hshort, hc]

lemma ephem_dateerr (lib : AstroLib) (inp : Inputs) (loc : EarthLoc) (e : String)
    (hL : lib.from_geodetic inp.geolon inp.geolat = .ok loc)
    (hT : lib.timeParse (inp.date ++ " " ++ inp.time) = .error e) :
    ephem lib inp =
      ⟨.ok none,
       [(ElemId.mooncoo, msgKoord (lib.fmtLon loc) (lib.fmtLat loc)),
        (ElemId.mooncoo, msgDatumErr inp.date inp.time e)]⟩ := by
  simp [ephem, get_obsloc, hL, hT]

lemma distanz_seperr (lib : AstroLib) (inp : Inputs) (mc sc : SkyCoord)
    (w1 : List Wr) (e : String)
    (hS : get_starcoo lib inp = ⟨.ok (some sc), w1⟩)
    (hSep : lib.separation mc sc = .error e) :
    distanz lib inp mc =
      ⟨.ok (), w1 ++ [(ElemId.moondis, msgDistErr (lib.fmtCoordDefault sc) e)]⟩ := by
  simp [distanz, hS, hSep]

/-! ## The claims -/

/-- C1: when the lunar-distance angle parses, the star resolves, the grid
locations construct, and the Moon/separation computations on the candidate
grid succeed, `utctime` writes the universal time `obstimes[idx]` at which
the computed Moon-star separation is closest to the entered angle: `idx`
minimizes `|separation - angle|` over the whole grid. -/
theorem sextant_C1 (lib : AstroLib) (inp : Inputs) (mydist : ℚ) (sc : SkyCoord)
    (w1 : List Wr) (locs : List EarthLoc) (lt : ℚ) (moons : List SkyCoord)
    (dists : List ℚ)
    (hA : lib.parseAngle inp.stardis.toLower (dunitOf inp.stardis.toLower) = .ok mydist)
    (hS : get_starcoo lib inp = ⟨.ok (some sc), w1⟩)
    (hO : lib.from_geodetic_vec lonArcmin inp.geolat = .ok locs)
    (hT : lib.timeParse loctimeStr = .ok lt)
    (hM : lib.get_moon_vec (obstimes lt) locs "builtin" = .ok moons)
    (hD : lib.separation_vec moons sc = .ok dists)
    (hne : dists ≠ []) :
    utctime lib inp =
      ⟨.ok (),
       w1 ++
        [(ElemId.utctime,
          msgBeste (lib.fmtCoord sc 0)
            (lib.fmtAngle (dists.getD (argminQ (dists.map (fun dv => |dv - mydist|))) 0) 0)
            (lib.fmtTime ((obstimes lt).getD (argminQ (dists.map (fun dv => |dv - mydist|))) 0))),
         (ElemId.timediff,
          msgDiff (lib.fmtMin
            (lt - (obstimes lt).getD (argminQ (dists.map (fun dv => |dv - mydist|))) 0)))]⟩ ∧
    argminQ (dists.map (fun dv => |dv - mydist|)) < dists.length ∧
    ∀ j, j < dists.length →
      |dists.getD (argminQ (dists.map (fun dv => |dv - mydist|))) 0 - mydist| ≤
        |dists.getD j 0 - mydist| := by
  have hmapne : dists.map (fun dv => |dv - mydist|) ≠ [] := by
    simpa using hne
  have hlt : argminQ (dists.map (fun dv => |dv - mydist|)) < dists.length := by
    have := argminQ_lt_length _ hmapne
    simpa using this
  refine ⟨utctime_run lib inp mydist sc w1 locs lt moons dists hA hS hO hT hM hD, hlt, ?_⟩
  intro j hj
  have hmin := argminQ_getD _ hmapne j (by simpa using hj)
  rwa [getD_map_absdiff dists mydist _ hlt, getD_map_absdiff dists mydist j hj] at hmin

/-- C1 witness: a full concrete run through `utctime` with the all-succeeding
library. -/
theorem sextant_C1_witness : (utctime constLib inp0).val = .ok () := by
  have hlen : (((obstimes 0).map (fun _ => (⟨0, 0⟩ : SkyCoord))).map
      (fun _ => (0 : ℚ))).length = 480 := by
    rw [List.length_map, List.length_map, obstimes_length]
  have hne : (((obstimes 0).map (fun _ => (⟨0, 0⟩ : SkyCoord))).map
      (fun _ => (0 : ℚ))) ≠ [] := by
    intro hnil
    rw [hnil] at hlen
    exact absurd hlen (by decide)
  have h := sextant_C1 constLib inp0 0 ⟨0, 0⟩ [] (lonArcmin.map (fun q => ⟨q / 60, 0⟩)) 0
    ((obstimes 0).map (fun _ => ⟨0, 0⟩))
    (((obstimes 0).map (fun _ => (⟨0, 0⟩ : SkyCoord))).map (fun _ => 0))
    rfl (get_starcoo_short constLib inp0 ⟨0, 0⟩ (by decide) rfl) rfl rfl rfl rfl hne
  rw [h.1]

/-- C2 (refuted by the code): `utctime` never reads the date or time form
fields — the candidate observation times are derived from the hardcoded
constant `loctimeStr`, so any two runs differing only in the date and time
fields coincide. -/
theorem sextant_C2_bug (lib : AstroLib) (d t d2 t2 g1 g2 sp rs sd : String) :
    utctime lib ⟨d, t, g1, g2, sp, rs, sd⟩ = utctime lib ⟨d2, t2, g1, g2, sp, rs, sd⟩ := rfl

/-- C3 counterexample: an exception raised by the external library inside
the search block of `utctime` (the Moon ephemeris on the candidate grid)
escapes the operation uncaught. -/
theorem sextant_C3_counterexample :
    (utctime moonFailLib inp0).val = .error "boom" := by
  rw [utctime_moonerr moonFailLib inp0 0 ⟨0, 0⟩ []
    (lonArcmin.map (fun q => ⟨q / 60, 0⟩)) 0 "boom"
    rfl (get_starcoo_short moonFailLib inp0 ⟨0, 0⟩ (by decide) rfl) rfl rfl rfl]

/-- C3 (amended): exceptions are caught and rendered as German error
strings in `get_obsloc` (both call shapes), in the manual-entry branch of
`get_starcoo` (which never raises), in the date parsing of `ephem`, in
`distanz`, and in the angle parsing of `utctime`; but an exception from
parsing the dropdown value in `get_starcoo` propagates, an exception from
the Moon or separation computation inside the search block of `utctime`
propagates, and after a rendered Moon-lookup error `ephem` raises a
`NameError` at its final `return mooncoo`. -/
theorem sextant_C3_amended (lib : AstroLib) (inp : Inputs) :
    (∀ e, lib.from_geodetic inp.geolon inp.geolat = .error e →
      get_obsloc lib inp =
        (none, [(ElemId.mooncoo, msgObslocErr inp.geolon inp.geolat e)])) ∧
    (∀ (lonAm : List ℚ) (e : String),
      lib.from_geodetic_vec lonAm inp.geolat = .error e →
      get_obsloc_vec lib inp lonAm =
        (none, [(ElemId.mooncoo, msgObslocErr (toString lonAm) inp.geolat e)])) ∧
    ((pyStrip inp.starpos).length > 2 →
      (∀ e, (get_starcoo lib inp).val ≠ .error e) ∧
      starcoo_render lib inp.starpos (.error NameErr.nameResolve) =
        ⟨.ok none, [(ElemId.moondis, msgSternUnbekannt inp.starpos)]⟩ ∧
      (∀ e, starcoo_render lib inp.starpos (.error (NameErr.jsException e)) =
        ⟨.ok none, [(ElemId.moondis, msgCDS inp.starpos e)]⟩) ∧
      (∀ e, starcoo_render lib inp.starpos (.error (NameErr.other e)) =
        ⟨.ok none, [(ElemId.moondis, msgSternFehler inp.starpos e)]⟩)) ∧
    (∀ e, ¬ (pyStrip inp.starpos).length > 2 →
      lib.skyCoord inp.refstar = .error e →
      get_starcoo lib inp = ⟨.error e, []⟩) ∧
    (∀ (loc : EarthLoc) (e : String),
      lib.from_geodetic inp.geolon inp.geolat = .ok loc →
      lib.timeParse (inp.date ++ " " ++ inp.time) = .error e →
      ephem lib inp =
        ⟨.ok none,
         [(ElemId.mooncoo, msgKoord (lib.fmtLon loc) (lib.fmtLat loc)),
          (ElemId.mooncoo, msgDatumErr inp.date inp.time e)]⟩) ∧
    (∀ (loc : EarthLoc) (tv : ℚ) (e : String),
      lib.from_geodetic inp.geolon inp.geolat = .ok loc →
      lib.timeParse (inp.date ++ " " ++ inp.time) = .ok tv →
      lib.get_moon (tv - loc.lonDeg * 4) loc "builtin" = .error e →
      ephem lib inp =
        ⟨.error "NameError: name mooncoo is not defined",
         [(ElemId.mooncoo, msgKoord (lib.fmtLon loc) (lib.fmtLat loc)),
          (ElemId.mooncoo, msgDatumZeit inp.date inp.time (lib.fmtTime (tv - loc.lonDeg * 4))),
          (ElemId.mooncoo, msgMondErr e inp.date inp.time)]⟩) ∧
    (∀ (mc sc : SkyCoord) (w1 : List Wr) (e : String),
      get_starcoo lib inp = ⟨.ok (some sc), w1⟩ →
      lib.separation mc sc = .error e →
      distanz lib inp mc =
        ⟨.ok (), w1 ++ [(ElemId.moondis, msgDistErr (lib.fmtCoordDefault sc) e)]⟩) ∧
    (∀ e, lib.parseAngle inp.stardis.toLower (dunitOf inp.stardis.toLower) = .error e →
      utctime lib inp = ⟨.ok (), [(ElemId.utctime, msgWinkelErr inp.stardis e)]⟩) ∧
    (∀ (mydist : ℚ) (sc : SkyCoord) (w1 : List Wr) (locs : List EarthLoc) (lt : ℚ)
        (e : String),
      lib.parseAngle inp.stardis.toLower (dunitOf inp.stardis.toLower) = .ok mydist →
      get_starcoo lib inp = ⟨.ok (some sc), w1⟩ →
      lib.from_geodetic_vec lonArcmin inp.geolat = .ok locs →
      lib.timeParse loctimeStr = .ok lt →
      lib.get_moon_vec (obstimes lt) locs "builtin" = .error e →
      (utctime lib inp).val = .error e) ∧
    (∀ (mydist : ℚ) (sc : SkyCoord) (w1 : List Wr) (locs : List EarthLoc) (lt : ℚ)
        (moons : List SkyCoord) (e : String),
      lib.parseAngle inp.stardis.toLower (dunitOf inp.stardis.toLower) = .ok mydist →
      get_starcoo lib inp = ⟨.ok (some sc), w1⟩ →
      lib.from_geodetic_vec lonArcmin inp.geolat = .ok locs →
      lib.timeParse loctimeStr = .ok lt →
      lib.get_moon_vec (obstimes lt) locs "builtin" = .ok moons →
      lib.separation_vec moons sc = .error e →
      (utctime lib inp).val = .error e) := by
  refine ⟨?_, ?_, ?_, ?_, ?_, ?_, ?_, ?_, ?_, ?_⟩
  · intro e hE
    exact get_obsloc_err lib inp e hE
  · intro lonAm e hE
    exact get_obsloc_vec_err lib inp lonAm e hE
  · intro hlong
    refine ⟨?_, rfl, fun e => rfl, fun e => rfl⟩
    intro e
    obtain ⟨v, hv⟩ := get_starcoo_manual_ok lib inp hlong
    rw [hv]
    simp
  · intro e hshort hc
    exact get_starcoo_short_err lib inp e hshort hc
  · intro loc e hL hT
    exact ephem_dateerr lib inp loc e hL hT
  · intro loc tv e hL hT hM
    exact ephem_moonerr lib inp loc tv e hL hT hM
  · intro mc sc w1 e hS hSep
    exact distanz_seperr lib inp mc sc w1 e hS hSep
  · intro e hE
    simp [utctime, hE]
  · intro mydist sc w1 locs lt e hA hS hO hT hM
    rw [utctime_moonerr lib inp mydist sc w1 locs lt e hA hS hO hT hM]
  · intro mydist sc w1 locs lt moons e hA hS hO hT hM hD
    rw [utctime_seperr lib inp mydist sc w1 locs lt moons e hA hS hO hT hM hD]

/-- C3 witness: the angle-parse catch of the amended claim on a concrete
failing parser. -/
theorem sextant_C3_witness :
    utctime angleFailLib inp0 =
      ⟨.ok (), [(ElemId.utctime, msgWinkelErr "90" "anglebad")]⟩ :=
  (sextant_C3_amended angleFailLib inp0).2.2.2.2.2.2.2.1 "anglebad" rfl

/-- C4: with a star coordinate obtained by `get_starcoo` and a successful
separation computation, `distanz` writes the Moon-star separation formatted
to one decimal of precision into the `moondis` element. -/
theorem sextant_C4 (lib : AstroLib) (inp : Inputs) (mc sc : SkyCoord)
    (w1 : List Wr) (dv : ℚ)
    (hS : get_starcoo lib inp = ⟨.ok (some sc), w1⟩)
    (hSep : lib.separation mc sc = .ok dv) :
    distanz lib inp mc =
      ⟨.ok (),
       w1 ++ [(ElemId.moondis, msgAbstand (lib.fmtCoord sc 1) (lib.fmtAngle dv 1))]⟩ := by
  simp [distanz, hS, hSep]

/-- C4 witness: a concrete run of `distanz` with the all-succeeding library. -/
theorem sextant_C4_witness :
    distanz constLib inp0 ⟨0, 0⟩ =
      ⟨.ok (), [(ElemId.moondis, msgAbstand "C" (toString (0 : ℚ)))]⟩ :=
  sextant_C4 constLib inp0 ⟨0, 0⟩ ⟨0, 0⟩ [] 0
    (get_starcoo_short constLib inp0 ⟨0, 0⟩ (by decide) rfl) rfl

/-- C5: when the observer position and date/time parse, `ephem` returns the
Moon position computed by the library Moon-ephemeris lookup (with the
builtin ephemeris) at the constructed observation time and location, and
writes it as an hms/dms string (precision 2) to the `mooncoo` element. -/
theorem sextant_C5 (lib : AstroLib) (inp : Inputs) (loc : EarthLoc) (tv : ℚ)
    (mc : SkyCoord)
    (hL : lib.from_geodetic inp.geolon inp.geolat = .ok loc)
    (hT : lib.timeParse (inp.date ++ " " ++ inp.time) = .ok tv)
    (hM : lib.get_moon (tv - loc.lonDeg * 4) loc "builtin" = .ok mc) :
    ephem lib inp =
      ⟨.ok (some mc),
       [(ElemId.mooncoo, msgKoord (lib.fmtLon loc) (lib.fmtLat loc)),
        (ElemId.mooncoo, msgDatumZeit inp.date inp.time (lib.fmtTime (tv - loc.lonDeg * 4))),
        (ElemId.mooncoo, msgMondpos (lib.fmtLonF3 loc) (lib.fmtLatF3 loc)
          (lib.fmtTime (tv - loc.lonDeg * 4)) (lib.fmtCoord mc 2))]⟩ :=
  ephem_run lib inp loc tv mc hL hT hM

/-- C5 witness: a concrete run of `ephem` with the all-succeeding library. -/
theorem sextant_C5_witness : (ephem constLib inp0).val = .ok (some ⟨0, 0⟩) := by
  rw [sextant_C5 constLib inp0 ⟨0, 0⟩ 0 ⟨0, 0⟩ rfl rfl rfl]

/-- C8: the observation time `ephem` hands to the Moon ephemeris, and the
one it echoes to the page, is the parsed input time minus longitude in
degrees times 4 minutes. -/
theorem sextant_C8 (lib : AstroLib) (inp : Inputs) (loc : EarthLoc) (tv : ℚ)
    (hL : lib.from_geodetic inp.geolon inp.geolat = .ok loc)
    (hT : lib.timeParse (inp.date ++ " " ++ inp.time) = .ok tv) :
    (∀ mc, lib.get_moon (tv - loc.lonDeg * 4) loc "builtin" = .ok mc →
      (ephem lib inp).val = .ok (some mc)) ∧
    ∃ w, (ephem lib inp).writes =
      [(ElemId.mooncoo, msgKoord (lib.fmtLon loc) (lib.fmtLat loc)),
       (ElemId.mooncoo,
        msgDatumZeit inp.date inp.time (lib.fmtTime (tv - loc.lonDeg * 4)))] ++ w := by
  constructor
  · intro mc hM
    rw [ephem_run lib inp loc tv mc hL hT hM]
  · cases hM : lib.get_moon (tv - loc.lonDeg * 4) loc "builtin" with
    | error e =>
        refine ⟨[(ElemId.mooncoo, msgMondErr e inp.date inp.time)], ?_⟩
        rw [ephem_moonerr lib inp loc tv e hL hT hM]
        rfl
    | ok mc =>
        refine ⟨[(ElemId.mooncoo, msgMondpos (lib.fmtLonF3 loc) (lib.fmtLatF3 loc)
            (lib.fmtTime (tv - loc.lonDeg * 4)) (lib.fmtCoord mc 2))], ?_⟩
        rw [ephem_run lib inp loc tv mc hL hT hM]
        rfl

/-- C8 witness: the echoed observation time on a concrete run. -/
theorem sextant_C8_witness :
    ∃ w, (ephem constLib inp0).writes =
      [(ElemId.mooncoo, msgKoord (toString (0 : ℚ)) (toString (0 : ℚ))),
       (ElemId.mooncoo,
        msgDatumZeit "1761-01-15" "19:55:00" (toString ((0 : ℚ) - 0 * 4)))] ++ w :=
  (sextant_C8 constLib inp0 ⟨0, 0⟩ 0 rfl rfl).2

/-! ## Write-target helper lemmas -/

lemma get_obsloc_writes (lib : AstroLib) (inp : Inputs) :
    ∀ w ∈ (get_obsloc lib inp).2, w.1 = ElemId.mooncoo := by
  intro w hw
  rcases h : lib.from_geodetic inp.geolon inp.geolat with e | loc <;>
    simp [get_obsloc, h] at hw <;> simp [hw]

lemma get_obsloc_vec_writes (lib : AstroLib) (inp : Inputs) (lonAm : List ℚ) :
    ∀ w ∈ (get_obsloc_vec lib inp lonAm).2, w.1 = ElemId.mooncoo := by
  intro w hw
  rcases h : lib.from_geodetic_vec lonAm inp.geolat with e | locs <;>
    simp [get_obsloc_vec, h] at hw
  simp [hw]

lemma starcoo_render_writes (lib : AstroLib) (starstr : String)
    (parsed : Except NameErr SkyCoord) :
    ∀ w ∈ (starcoo_render lib starstr parsed).writes, w.1 = ElemId.moondis := by
  intro w hw
  rcases parsed with ne | c
  · rcases ne with _ | e | e <;> simp [starcoo_render] at hw <;> simp [hw]
  · simp [starcoo_render] at hw
    simp [hw]

lemma get_starcoo_writes (lib : AstroLib) (inp : Inputs) :
    ∀ w ∈ (get_starcoo lib inp).writes, w.1 = ElemId.moondis := by
  intro w hw
  by_cases h : (pyStrip inp.starpos).length > 2
  · rw [get_starcoo, if_pos h] at hw
    exact starcoo_render_writes lib inp.starpos _ w hw
  · rcases hsk : lib.skyCoord inp.refstar with e | c <;>
      simp [get_starcoo, h, hsk] at hw

lemma ephem_writes (lib : AstroLib) (inp : Inputs) :
    ∀ w ∈ (ephem lib inp).writes, w.1 = ElemId.mooncoo := by
  intro w hw
  rcases hL : lib.from_geodetic inp.geolon inp.geolat with e | loc
  · simp [ephem, get_obsloc, hL] at hw
    simp [hw]
  · rcases hT : lib.timeParse (inp.date ++ " " ++ inp.time) with e | tv
    · simp [ephem, get_obsloc, hL, hT] at hw
      rcases hw with hw | hw <;> simp [hw]
    · rcases hM : lib.get_moon (tv - loc.lonDeg * 4) loc "builtin" with e | mc <;>
        simp [ephem, get_obsloc, hL, hT, hM] at hw <;>
        rcases hw with hw | hw | hw <;> simp [hw]

lemma distanz_writes (lib : AstroLib) (inp : Inputs) (mc : SkyCoord) :
    ∀ w ∈ (distanz lib inp mc).writes, w.1 = ElemId.moondis := by
  intro w hw
  have hws := get_starcoo_writes lib inp
  rcases hv : get_starcoo lib inp with ⟨v, ws⟩
  rw [hv] at hws
  rcases v with e | opt
  · simp [distanz, hv] at hw
    exact hws w hw
  · rcases opt with _ | sc
    · simp [distanz, hv] at hw
      exact hws w hw
    · rcases hS : lib.separation mc sc with e | dv <;>
        simp [distanz, hv, hS] at hw <;>
        (rcases hw with hw | hw
         · exact hws w hw
         · simp [hw])

lemma utctime_writes (lib : AstroLib) (inp : Inputs) :
    ∀ w ∈ (utctime lib inp).writes,
      w.1 = ElemId.mooncoo ∨ w.1 = ElemId.moondis ∨
      w.1 = ElemId.utctime ∨ w.1 = ElemId.timediff := by
  intro w hw
  rcases hA : lib.parseAngle inp.stardis.toLower (dunitOf inp.stardis.toLower) with e | mydist
  · simp [utctime, hA] at hw
    simp [hw]
  · have hws := get_starcoo_writes lib inp
    rcases hv : get_starcoo lib inp with ⟨v, ws⟩
    rw [hv] at hws
    have hwo := get_obsloc_vec_writes lib inp lonArcmin
    rcases v with e | opt
    · simp [utctime, hA, hv] at hw
      exact Or.inr (Or.inl (hws w hw))
    · rcases hO : lib.from_geodetic_vec lonArcmin inp.geolat with e | locs
      · have hro := get_obsloc_vec_err lib inp lonArcmin e hO
        rcases opt with _ | sc <;>
          simp [utctime, hA, hv, hro] at hw <;>
          (rcases hw with hw | hw
           · exact Or.inr (Or.inl (hws w hw))
           · simp [hw])
      · have hro := get_obsloc_vec_ok lib inp lonArcmin locs hO
        rcases opt with _ | sc
        · simp [utctime, hA, hv, hro] at hw
          exact Or.inr (Or.inl (hws w hw))
        · rcases hT : lib.timeParse loctimeStr with e | lt
          · simp [utctime, hA, hv, hro, hT] at hw
            exact Or.inr (Or.inl (hws w hw))
          · rcases hM : lib.get_moon_vec (obstimes lt) locs "builtin" with e | moons
            · simp [utctime, hA, hv, hro, hT, hM] at hw
              exact Or.inr (Or.inl (hws w hw))
            · rcases hD : lib.separation_vec moons sc with e | dists
              · simp [utctime, hA, hv, hro, hT, hM, hD] at hw
                exact Or.inr (Or.inl (hws w hw))
              · simp [utctime, hA, hv, hro, hT, hM, hD] at hw
                rcases hw with hw | hw | hw
                · exact Or.inr (Or.inl (hws w hw))
                · simp [hw]
                · simp [hw]

lemma offsets_getElem (i : Nat) (hi : i < offsets.length) :
    offsets[i] = (i : ℤ) - 240 := by
  simp [offsets, List.getElem_map, List.getElem_range]

lemma offsets_getD (i : Nat) (hi : i < 480) : offsets.getD i 0 = (i : ℤ) - 240 := by
  have hl : i < offsets.length := by rw [offsets_length]; exact hi
  rw [List.getD_eq_getElem _ _ hl, offsets_getElem i hl]

lemma lonArcmin_getD (i : Nat) (hi : i < 480) :
    lonArcmin.getD i 0 = 15 * (((i : ℤ) - 240 : ℤ) : ℚ) := by
  have hl : i < offsets.length := by rw [offsets_length]; exact hi
  have hml : i < lonArcmin.length := by
    rw [lonArcmin, List.length_map]; exact hl
  rw [List.getD_eq_getElem _ _ hml]
  simp only [lonArcmin, List.getElem_map, offsets_getElem i hl]

lemma obstimes_getD (lt : ℚ) (i : Nat) (hi : i < 480) :
    (obstimes lt).getD i 0 = lt - (((i : ℤ) - 240 : ℤ) : ℚ) := by
  have hl : i < offsets.length := by rw [offsets_length]; exact hi
  have hml : i < (obstimes lt).length := by
    rw [obstimes, List.length_map]; exact hl
  rw [List.getD_eq_getElem _ _ hml]
  simp only [obstimes, List.getElem_map, offsets_getElem i hl]

/-- C6: when observer-location construction fails, `get_obsloc` writes a
German error to `mooncoo` and returns `None`; `ephem` then returns `None`
with no further writes; and in `utctime` (after a successful angle parse)
no `utctime`/`timediff` output is produced and the outcome does not depend
on the Moon-ephemeris or separation entry points at all. -/
theorem sextant_C6 (lib : AstroLib) (inp : Inputs) :
    (∀ e, lib.from_geodetic inp.geolon inp.geolat = .error e →
      get_obsloc lib inp =
        (none, [(ElemId.mooncoo, msgObslocErr inp.geolon inp.geolat e)]) ∧
      ephem lib inp =
        ⟨.ok none, [(ElemId.mooncoo, msgObslocErr inp.geolon inp.geolat e)]⟩) ∧
    (∀ (mydist : ℚ) (e : String),
      lib.parseAngle inp.stardis.toLower (dunitOf inp.stardis.toLower) = .ok mydist →
      lib.from_geodetic_vec lonArcmin inp.geolat = .error e →
      (∀ w ∈ (utctime lib inp).writes, w.1 = ElemId.moondis ∨ w.1 = ElemId.mooncoo) ∧
      (∀ gm sv, utctime (libWithMoon lib gm sv) inp = utctime lib inp)) := by
  constructor
  · intro e hE
    refine ⟨get_obsloc_err lib inp e hE, ?_⟩
    simp [ephem, get_obsloc, hE]
  · intro mydist e hA hO
    have hro := get_obsloc_vec_err lib inp lonArcmin e hO
    constructor
    · intro w hw
      have hws := get_starcoo_writes lib inp
      rcases hv : get_starcoo lib inp with ⟨v, ws⟩
      rw [hv] at hws
      rcases v with e2 | opt
      · simp [utctime, hA, hv] at hw
        exact Or.inl (hws w hw)
      · rcases opt with _ | sc <;>
          simp [utctime, hA, hv, hro] at hw <;>
          (rcases hw with hw | hw
           · exact Or.inl (hws w hw)
           · simp [hw])
    · intro gm sv
      have hv2 : get_starcoo (libWithMoon lib gm sv) inp = get_starcoo lib inp := rfl
      have hov : get_obsloc_vec (libWithMoon lib gm sv) inp lonArcmin =
          get_obsloc_vec lib inp lonArcmin := rfl
      have hpa : (libWithMoon lib gm sv).parseAngle = lib.parseAngle := rfl
      rcases hv : get_starcoo lib inp with ⟨v, ws⟩
      rcases v with e2 | opt
      · simp [utctime, hpa, hv2, hv, hA]
      · rcases opt with _ | sc <;>
          simp [utctime, hpa, hv2, hv, hA, hov, hro]

/-- C6 witness: a concrete run with failing location construction. -/
theorem sextant_C6_witness :
    ephem locFailLib inp0 =
      ⟨.ok none, [(ElemId.mooncoo, msgObslocErr "0d" "0d" "locbad")]⟩ :=
  ((sextant_C6 locFailLib inp0).1 "locbad" rfl).2

/-- C7: the startup code writes only the dropdown `innerHTML` and the three
button disabled flags, and every write performed by any operation, for any
library behaviour and any inputs, targets one of the four output elements
`mooncoo`, `moondis`, `utctime`, `timediff`. -/
theorem sextant_C7 :
    (∀ w ∈ setupWrites,
      w.1 = ElemId.refstar ∨ w.1 = ElemId.ephembutton ∨
      w.1 = ElemId.distbutton ∨ w.1 = ElemId.utcbutton) ∧
    ∀ (lib : AstroLib) (inp : Inputs) (mc : SkyCoord) (lonAm : List ℚ),
      (∀ w ∈ (get_obsloc lib inp).2, w.1 = ElemId.mooncoo) ∧
      (∀ w ∈ (get_obsloc_vec lib inp lonAm).2, w.1 = ElemId.mooncoo) ∧
      (∀ w ∈ (get_starcoo lib inp).writes, w.1 = ElemId.moondis) ∧
      (∀ w ∈ (ephem lib inp).writes, w.1 = ElemId.mooncoo) ∧
      (∀ w ∈ (distanz lib inp mc).writes, w.1 = ElemId.moondis) ∧
      (∀ w ∈ (utctime lib inp).writes,
        w.1 = ElemId.mooncoo ∨ w.1 = ElemId.moondis ∨
        w.1 = ElemId.utctime ∨ w.1 = ElemId.timediff) := by
  refine ⟨by decide, ?_⟩
  intro lib inp mc lonAm
  exact ⟨get_obsloc_writes lib inp, get_obsloc_vec_writes lib inp lonAm,
    get_starcoo_writes lib inp, ephem_writes lib inp,
    distanz_writes lib inp mc, utctime_writes lib inp⟩

/-- C7 witness: the button-enabling startup write hits an allowed target. -/
theorem sextant_C7_witness :
    (ElemId.ephembutton, "disabled=False").1 = ElemId.refstar ∨
    (ElemId.ephembutton, "disabled=False").1 = ElemId.ephembutton ∨
    (ElemId.ephembutton, "disabled=False").1 = ElemId.distbutton ∨
    (ElemId.ephembutton, "disabled=False").1 = ElemId.utcbutton :=
  sextant_C7.1 (ElemId.ephembutton, "disabled=False") (by decide)

/-- C9: candidate k of the search grid pairs longitude 15k arcminutes with
observation time loctime − k minutes — so longitude in degrees times
4 minutes per degree exactly cancels the offset — and on the success path
the reported local-minus-universal difference is exactly the selected
offset in whole minutes. -/
theorem sextant_C9 (lt : ℚ) :
    (offsets.length = 480 ∧ lonArcmin.length = 480 ∧ (obstimes lt).length = 480 ∧
     ∀ i, i < 480 →
       offsets.getD i 0 = (i : ℤ) - 240 ∧
       lonArcmin.getD i 0 = 15 * ((offsets.getD i 0 : ℤ) : ℚ) ∧
       (obstimes lt).getD i 0 = lt - ((offsets.getD i 0 : ℤ) : ℚ) ∧
       lonArcmin.getD i 0 / 60 * 4 = lt - (obstimes lt).getD i 0) ∧
    (∀ (lib : AstroLib) (inp : Inputs) (mydist : ℚ) (sc : SkyCoord) (w1 : List Wr)
        (locs : List EarthLoc) (moons : List SkyCoord) (dists : List ℚ),
      lib.parseAngle inp.stardis.toLower (dunitOf inp.stardis.toLower) = .ok mydist →
      get_starcoo lib inp = ⟨.ok (some sc), w1⟩ →
      lib.from_geodetic_vec lonArcmin inp.geolat = .ok locs →
      lib.timeParse loctimeStr = .ok lt →
      lib.get_moon_vec (obstimes lt) locs "builtin" = .ok moons →
      lib.separation_vec moons sc = .ok dists →
      dists.length = 480 →
      lt - (obstimes lt).getD (argminQ (dists.map (fun dv => |dv - mydist|))) 0 =
        ((offsets.getD (argminQ (dists.map (fun dv => |dv - mydist|))) 0 : ℤ) : ℚ) ∧
      ∃ pre, (utctime lib inp).writes = pre ++
        [(ElemId.timediff, msgDiff (lib.fmtMin
          ((offsets.getD (argminQ (dists.map (fun dv => |dv - mydist|))) 0 : ℤ) : ℚ)))]) := by
  constructor
  · refine ⟨offsets_length, ?_, obstimes_length lt, ?_⟩
    · rw [lonArcmin, List.length_map, offsets_length]
    · intro i hi
      refine ⟨offsets_getD i hi, ?_, ?_, ?_⟩
      · rw [lonArcmin_getD i hi, offsets_getD i hi]
      · rw [obstimes_getD lt i hi, offsets_getD i hi]
      · rw [lonArcmin_getD i hi, obstimes_getD lt i hi]
        ring
  · intro lib inp mydist sc w1 locs moons dists hA hS hO hT hM hD hlen
    have hne : dists ≠ [] := by
      intro h
      rw [h] at hlen
      exact absurd hlen (by decide)
    have hlt : argminQ (dists.map (fun dv => |dv - mydist|)) < 480 := by
      have h1 := argminQ_lt_length (dists.map (fun dv => |dv - mydist|)) (by simpa using hne)
      rw [List.length_map, hlen] at h1
      exact h1
    have hval : lt - (obstimes lt).getD (argminQ (dists.map (fun dv => |dv - mydist|))) 0 =
        ((offsets.getD (argminQ (dists.map (fun dv => |dv - mydist|))) 0 : ℤ) : ℚ) := by
      rw [obstimes_getD lt _ hlt, offsets_getD _ hlt]
      ring
    refine ⟨hval, ?_⟩
    refine ⟨w1 ++ [(ElemId.utctime,
      msgBeste (lib.fmtCoord sc 0)
        (lib.fmtAngle (dists.getD (argminQ (dists.map (fun dv => |dv - mydist|))) 0) 0)
        (lib.fmtTime ((obstimes lt).getD (argminQ (dists.map (fun dv => |dv - mydist|))) 0)))], ?_⟩
    rw [utctime_run lib inp mydist sc w1 locs lt moons dists hA hS hO hT hM hD]
    rw [hval]
    simp

/-- C9 witness: a concrete success run with the all-succeeding library. -/
theorem sextant_C9_witness :
    (0 : ℚ) - (obstimes 0).getD (argminQ
      (((((obstimes 0).map (fun _ => (⟨0, 0⟩ : SkyCoord))).map
        (fun _ => (0 : ℚ)))).map (fun dv => |dv - 0|))) 0 =
      ((offsets.getD (argminQ
        (((((obstimes 0).map (fun _ => (⟨0, 0⟩ : SkyCoord))).map
          (fun _ => (0 : ℚ)))).map (fun dv => |dv - 0|))) 0 : ℤ) : ℚ) := by
  have hlen : ((((obstimes 0).map (fun _ => (⟨0, 0⟩ : SkyCoord))).map
      (fun _ => (0 : ℚ)))).length = 480 := by
    rw [List.length_map, List.length_map, obstimes_length]
  exact ((sextant_C9 0).2 constLib inp0 0 ⟨0, 0⟩ []
    (lonArcmin.map (fun q => ⟨q / 60, 0⟩)) ((obstimes 0).map (fun _ => ⟨0, 0⟩))
    ((((obstimes 0).map (fun _ => (⟨0, 0⟩ : SkyCoord))).map (fun _ => (0 : ℚ))))
    rfl (get_starcoo_short constLib inp0 ⟨0, 0⟩ (by decide) rfl) rfl rfl rfl rfl hlen).1

/-- C10: a manual star entry of at most 2 characters after stripping makes
`get_starcoo` parse the selected dropdown value instead; the dropdown holds
exactly three fixed stars whose values are well-formed hms/dms pairs, so
under a parser that accepts every well-formed hms/dms pair the fallback
returns a coordinate and never `None`. -/
theorem sextant_C10 (lib : AstroLib) (inp : Inputs)
    (hlib : ∀ s, isHmsDmsPair s = true → ∃ c, lib.skyCoord s = .ok c)
    (hshort : (pyStrip inp.starpos).length ≤ 2)
    (hsel : inp.refstar ∈ star_names.map (fun p => p.2)) :
    (star_names.map (fun p => p.2)).length = 3 ∧
    (∀ v ∈ star_names.map (fun p => p.2), isHmsDmsPair v = true) ∧
    ∃ c, lib.skyCoord inp.refstar = .ok c ∧
      get_starcoo lib inp = ⟨.ok (some c), []⟩ := by
  have hvalidAll : ∀ v ∈ star_names.map (fun p => p.2), isHmsDmsPair v = true := by
    decide
  refine ⟨by decide, hvalidAll, ?_⟩
  obtain ⟨c, hc⟩ := hlib inp.refstar (hvalidAll _ hsel)
  exact ⟨c, hc, get_starcoo_short lib inp c (by omega) hc⟩

/-- C10 witness: the Aldebaran dropdown value on a concrete run. -/
theorem sextant_C10_witness :
    ∃ c, constLib.skyCoord inp0.refstar = .ok c ∧
      get_starcoo constLib inp0 = ⟨.ok (some c), []⟩ :=
  (sextant_C10 constLib inp0 (fun _ _ => ⟨⟨0, 0⟩, rfl⟩) (by decide) (by decide)).2.2

end Sextant
